import Mathlib

/-!
Verification development for the Iceburg media orchestrator.

Shallow embedding of the core data model and algorithms:
  * `backend/program/media/item.py` — item attributes and state derivation
  * `backend/program/media/state.py` / usage sites — the `States` enumeration
  * `backend/program/state_transition.py` — `process_event`
  * `backend/program/scrapers/__init__.py` — scrape eligibility
  * `backend/program/downloaders/realdebrid.py` — cached-torrent selection
  * `backend/program/symlink.py` — symlink materialization and reset/blacklist
  * `src/utils/event_manager.py` — event admission

Instants are modelled as `Int` (seconds); Python string truthiness is modelled
by `truthy`; fallible external calls are abstracted as explicit parameters.
-/

namespace Iceburg

/-- The lifecycle states. The `States` enum itself is not under the source tree
(`backend/program/media/state.py` is an older draft); members are taken from the
uses in `item.py`, `state_transition.py`, `realdebrid.py` and the spec list. -/
inductive States where
  | Unknown
  | Requested
  | Indexed
  | Scraped
  | Downloaded
  | Symlinked
  | Completed
  | PartiallyCompleted
  | Failed
  | Unreleased
deriving DecidableEq

/-- Python truthiness of an optional string: `None` and `""` are falsy. -/
def truthy : Option String → Bool
  | none => false
  | some s => s != ""

/-- Common attributes of `MediaItem` (`backend/program/media/item.py`,
`MediaItem.__init__`). Pointers into external systems (`active_stream` dict)
are flattened to the fields the core reads. -/
structure MediaItem where
  requested_at : Int := 0
  requested_by : Option String := none
  indexed_at : Option Int := none
  scraped_at : Option Int := none
  scraped_times : Nat := 0
  active_stream_hash : Option String := none
  active_stream_id : Option String := none
  streams : List String := []
  symlinked : Bool := false
  symlinked_at : Option Int := none
  symlinked_times : Nat := 0
  file : Option String := none
  folder : Option String := none
  alternative_folder : Option String := none
  is_anime : Bool := false
  title : Option String := none
  imdb_id : Option String := none
  tvdb_id : Option String := none
  tmdb_id : Option String := none
  network : Option String := none
  country : Option String := none
  language : Option String := none
  aired_at : Option Int := none
  genres : List String := []
  key : Option String := none
  guid : Option String := none
  update_folder : Option String := none
  overseerr_id : Option Nat := none
deriving DecidableEq

/-- `MediaItem.is_scraped`: `len(self.streams) > 0`. -/
def MediaItem.is_scraped (m : MediaItem) : Bool :=
  !m.streams.isEmpty

/-- `MediaItem._determine_state` (`item.py` lines 102-115), the leaf state
derivation inherited unchanged by `Movie` and `Episode`. -/
def MediaItem.determine_state (m : MediaItem) : States :=
  if truthy m.key || m.update_folder == some "updated" then States.Completed
  else if m.symlinked then States.Symlinked
  else if truthy m.file && truthy m.folder then States.Downloaded
  else if m.is_scraped then States.Scraped
  else if truthy m.title then States.Indexed
  else if truthy m.imdb_id && truthy m.requested_by then States.Requested
  else States.Unknown

/-- `Episode` (`item.py`): leaf node with an episode `number`. The parent
pointer is carried by context where needed. -/
structure Episode where
  number : Nat
  item : MediaItem
deriving DecidableEq

/-- `Episode.state` is the inherited `MediaItem._determine_state`. -/
def Episode.state (e : Episode) : States :=
  e.item.determine_state

/-- `Season` (`item.py`): a season `number` and its episodes. -/
structure Season where
  number : Nat
  episodes : List Episode
  item : MediaItem
deriving DecidableEq

/-- `Season._determine_state` (`item.py` lines 335-352). -/
def Season.determine_state (s : Season) : States :=
  if !s.episodes.isEmpty then
    if s.episodes.all (fun e => e.state == States.Completed) then States.Completed
    else if s.episodes.any (fun e => e.state == States.Completed) then States.PartiallyCompleted
    else if s.episodes.all (fun e => e.state == States.Symlinked) then States.Symlinked
    else if s.episodes.all (fun e => truthy e.item.file && truthy e.item.folder) then States.Downloaded
    else if s.item.is_scraped then States.Scraped
    else if s.episodes.all (fun e => e.state == States.Indexed) then States.Indexed
    else if s.episodes.any (fun e => e.state == States.Requested) then States.Requested
    else States.Unknown
  else States.Unknown

/-- `Show` (`item.py`): a show and its seasons. -/
structure TvShow where
  seasons : List Season
  item : MediaItem
deriving DecidableEq

/-- `Show._determine_state` (`item.py` lines 273-291). -/
def TvShow.determine_state (sh : TvShow) : States :=
  if sh.seasons.all (fun s => s.determine_state == States.Completed) then States.Completed
  else if sh.seasons.any (fun s =>
      s.determine_state == States.Completed || s.determine_state == States.PartiallyCompleted) then
    States.PartiallyCompleted
  else if sh.seasons.any (fun s => s.determine_state == States.Symlinked) then States.Symlinked
  else if sh.seasons.any (fun s => s.determine_state == States.Downloaded) then States.Downloaded
  else if sh.seasons.any (fun s => s.determine_state == States.Scraped) then States.Scraped
  else if sh.seasons.any (fun s => s.determine_state == States.Indexed) then States.Indexed
  else if sh.seasons.any (fun s => s.determine_state == States.Requested) then States.Requested
  else States.Unknown

/-- An item as handled by the orchestrator: the tagged variant tree, with
parent context carried alongside (Python keeps `parent` back-pointers). -/
inductive Item where
  | movie (m : MediaItem)
  | tvshow (sh : TvShow)
  | season (parent : TvShow) (s : Season)
  | episode (grand : TvShow) (parent : Season) (e : Episode)
deriving DecidableEq

/-- `item.state`: dispatch of `_determine_state` over the variants. -/
def itemState : Item → States
  | Item.movie m => m.determine_state
  | Item.tvshow sh => sh.determine_state
  | Item.season _ s => s.determine_state
  | Item.episode _ _ e => e.state

/-- The attributes of the top node of an item. -/
def Item.attrs : Item → MediaItem
  | Item.movie m => m
  | Item.tvshow sh => sh.item
  | Item.season _ s => s.item
  | Item.episode _ _ e => e.item

/-- Leaf state derivation restated from the specification text, claim C5:
"key set or update_folder == updated gives Completed; else symlinked gives
Symlinked; else file and folder both set gives Downloaded; else non-empty
streams gives Scraped; else title set gives Indexed; else imdb_id and
requested_by both set gives Requested; else Unknown". -/
def specLeafState (m : MediaItem) : States :=
  if truthy m.key = true ∨ m.update_folder = some "updated" then States.Completed
  else if m.symlinked = true then States.Symlinked
  else if truthy m.file = true ∧ truthy m.folder = true then States.Downloaded
  else if m.streams ≠ [] then States.Scraped
  else if truthy m.title = true then States.Indexed
  else if truthy m.imdb_id = true ∧ truthy m.requested_by = true then States.Requested
  else States.Unknown

/-! ## State-transition function (`backend/program/state_transition.py`) -/

/-- The service classes that appear in `process_event` (emitters and targets). -/
inductive Service where
  | Overseerr
  | PlexWatchlist
  | Listrr
  | Mdblist
  | SymlinkLibrary
  | TraktIndexer
  | Scraping
  | Debrid
  | Symlinker
  | PlexUpdater
deriving DecidableEq

/-- `source_services` from `process_event`. -/
def sourceServices : List Service :=
  [Service.Overseerr, Service.PlexWatchlist, Service.Listrr, Service.Mdblist,
   Service.SymlinkLibrary]

/-- `item.parent` on the variants that have one (`Season.parent` is its show,
`Episode.parent` is its season); `Movie`/`Show` have `parent = None`. -/
def Item.parentItem : Item → Option Item
  | Item.season p _ => some (Item.tvshow p)
  | Item.episode g p _ => some (Item.season g p)
  | _ => none

/-- `MediaItem.copy_other_media_attr` (`item.py` lines 117-128): unconditionally
copy the metadata attributes from `other`. -/
def MediaItem.copy_other_media_attr (self other : MediaItem) : MediaItem :=
  { self with
    title := other.title
    tvdb_id := other.tvdb_id
    tmdb_id := other.tmdb_id
    network := other.network
    country := other.country
    language := other.language
    aired_at := other.aired_at
    genres := other.genres
    is_anime := other.is_anime
    overseerr_id := other.overseerr_id }

/-- Stable insertion of an episode into a list ordered by `number` (the effect
of Python's stable `sorted(..., key=lambda e: e.number)` when one element is
appended; applied recursively it is a stable sort). -/
def insertEpisodeByNumber (e : Episode) : List Episode → List Episode
  | [] => [e]
  | x :: xs =>
    if e.number ≤ x.number then e :: x :: xs else x :: insertEpisodeByNumber e xs

/-- Stable sort of episodes by `number`. -/
def sortEpisodesByNumber : List Episode → List Episode
  | [] => []
  | x :: xs => insertEpisodeByNumber x (sortEpisodesByNumber xs)

/-- Stable insertion of a season into a list ordered by `number`. -/
def insertSeasonByNumber (s : Season) : List Season → List Season
  | [] => [s]
  | x :: xs =>
    if s.number ≤ x.number then s :: x :: xs else x :: insertSeasonByNumber s xs

/-- Stable sort of seasons by `number`. -/
def sortSeasonsByNumber : List Season → List Season
  | [] => []
  | x :: xs => insertSeasonByNumber x (sortSeasonsByNumber xs)

/-- `Season.add_episode` (`item.py` lines 376-384): skip when the number is
already present, otherwise append and re-sort by number. Parent-pointer fixups
are implicit in the tree representation. -/
def Season.add_episode (se : Season) (e : Episode) : Season :=
  if se.episodes.any (fun x => x.number == e.number) then se
  else { se with episodes := sortEpisodesByNumber (se.episodes ++ [e]) }

/-- `Show.add_season` (`item.py` lines 310-315): append and re-sort by number. -/
def TvShow.add_season (sh : TvShow) (s : Season) : TvShow :=
  { sh with seasons := sortSeasonsByNumber (sh.seasons ++ [s]) }

/-- `Season.fill_in_missing_children` (`item.py` lines 367-371): the list of
existing numbers is snapshotted before the loop. -/
def Season.fill_in_missing_children (self other : Season) : Season :=
  let existing_nums := self.episodes.map (fun e => e.number)
  other.episodes.foldl
    (fun acc e => if e.number ∈ existing_nums then acc else acc.add_episode e) self

/-- Replace the first season with the given number (Python mutates the first
match found by `next(...)`). -/
def updateFirstSeason (f : Season → Season) (n : Nat) : List Season → List Season
  | [] => []
  | x :: xs =>
    if x.number == n then f x :: xs else x :: updateFirstSeason f n xs

/-- `Show.fill_in_missing_children` (`item.py` lines 299-308): add seasons whose
number is new (numbers snapshotted up front), otherwise fill the episodes of the
first season with that number. -/
def TvShow.fill_in_missing_children (self other : TvShow) : TvShow :=
  let existing_nums := self.seasons.map (fun s => s.number)
  other.seasons.foldl
    (fun acc s =>
      if s.number ∈ existing_nums then
        { acc with seasons :=
            updateFirstSeason (fun es => es.fill_in_missing_children s) s.number acc.seasons }
      else acc.add_season s)
    self

/-- Rewrite the top node's attributes of an item. -/
def Item.setAttrs : Item → MediaItem → Item
  | Item.movie _, a => Item.movie a
  | Item.tvshow sh, a => Item.tvshow { sh with item := a }
  | Item.season p s, a => Item.season p { s with item := a }
  | Item.episode g p e, a => Item.episode g p { e with item := a }

/-- The merge performed by `process_event` when the stored copy is not yet
indexed (`state_transition.py` lines 38-48): fill in missing children when the
incoming item is a `Show`/`Season` (a variant mismatch would raise in Python
and cannot arise; modelled as no fill), copy the media attributes, and stamp
`indexed_at` from the incoming item. -/
def mergeExisting (ex item : Item) : Item :=
  let filled : Item :=
    match ex, item with
    | Item.tvshow a, Item.tvshow b => Item.tvshow (a.fill_in_missing_children b)
    | Item.season p a, Item.season _ b => Item.season p (a.fill_in_missing_children b)
    | _, _ => ex
  filled.setAttrs
    { (filled.attrs.copy_other_media_attr item.attrs) with indexed_at := item.attrs.indexed_at }

/-- `items_to_submit` of the `TraktIndexer`/`Indexed` branch
(`state_transition.py` lines 55-63). -/
def scrapeSubmissions (scrapingShouldSubmit : Item → Bool) (it : Item) : List Item :=
  match it with
  | Item.tvshow sh =>
    if it.attrs.scraped_times != 0 then
      (sh.seasons.filter (fun s => s.determine_state != States.Completed)).map
        (fun s => Item.season sh s)
    else if scrapingShouldSubmit it then [it] else []
  | Item.season p s =>
    if it.attrs.scraped_times != 0 then
      (s.episodes.filter (fun e => e.state != States.Completed)).map
        (fun e => Item.episode p s e)
    else if scrapingShouldSubmit it then [it] else []
  | _ => if scrapingShouldSubmit it then [it] else []

/-- `process_event` (`state_transition.py` lines 14-99). The three predicates
of other services it consults (`TraktIndexer.should_submit`,
`Scraping.should_submit`, `Symlinker.should_submit` — the latter two do I/O or
read the clock) are passed as parameters. Two branches that leave
`items_to_submit`/`proposed_submissions` unbound in Python (a leaf in
`PartiallyCompleted`, a `Show` in `Downloaded` — both would raise) are modelled
as submitting nothing. -/
def process_event (traktShouldSubmit scrapingShouldSubmit symlinkerShouldSubmit : Item → Bool)
    (existing : Option Item) (emitted_by : Service) (item : Item) :
    Option Item × Option Service × List Item :=
  if sourceServices.contains emitted_by || itemState item == States.Unknown then
    -- seasons can't be indexed: substitute the parent show
    let pair : Item × Option Item :=
      match item with
      | Item.season p _ => (Item.tvshow p, existing.bind Item.parentItem)
      | _ => (item, existing)
    match pair.2 with
    | some ex =>
      if !traktShouldSubmit ex then (none, none, [])
      else (none, some Service.TraktIndexer, [pair.1])
    | none => (none, some Service.TraktIndexer, [pair.1])
  else if emitted_by == Service.TraktIndexer || itemState item == States.Indexed then
    match existing with
    | some ex =>
      let merged := if ex.attrs.indexed_at = none then mergeExisting ex item else ex
      let item2 := if ex.attrs.indexed_at = none then merged else item
      if itemState merged == States.Completed then (some merged, none, [])
      else (some item2, some Service.Scraping, scrapeSubmissions scrapingShouldSubmit item2)
    | none =>
      (some item, some Service.Scraping, scrapeSubmissions scrapingShouldSubmit item)
  else if itemState item == States.PartiallyCompleted then
    match item with
    | Item.tvshow sh =>
      (some item, some Service.Scraping,
        (sh.seasons.filter (fun s => s.determine_state != States.Completed)).map
          (fun s => Item.season sh s))
    | Item.season p s =>
      (some item, some Service.Scraping,
        (s.episodes.filter (fun e => e.state != States.Completed)).map
          (fun e => Item.episode p s e))
    | _ => (some item, some Service.Scraping, [])
  else if itemState item == States.Scraped then
    (some item, some Service.Debrid, [item])
  else if itemState item == States.Downloaded then
    let proposed : List Item :=
      match item with
      | Item.season p s => s.episodes.map (fun e => Item.episode p s e)
      | Item.movie m => [Item.movie m]
      | Item.episode g p e => [Item.episode g p e]
      | Item.tvshow _ => []
    (some item, some Service.Symlinker, proposed.filter symlinkerShouldSubmit)
  else if itemState item == States.Symlinked then
    let subs : List Item :=
      match item with
      | Item.tvshow sh => sh.seasons.map (fun s => Item.season sh s)
      | Item.season p s => s.episodes.map (fun e => Item.episode p s e)
      | _ => [item]
    (some item, some Service.PlexUpdater, subs)
  else if itemState item == States.Completed then
    (none, none, [])
  else
    (some item, none, [])

/-! ## Scrape eligibility (`backend/program/scrapers/__init__.py`) -/

/-- The scraping backoff settings (`settings_manager.settings.scraping`). -/
structure ScrapingSettings where
  after_2 : Nat
  after_5 : Nat
  after_10 : Nat
deriving DecidableEq

/-- The per-attempt threshold computed inside `Scraping.should_submit`
(`scrapers/__init__.py` lines 48-56), in seconds. -/
def scrapeTime (st : ScrapingSettings) (scraped_times : Nat) : Nat :=
  if 2 ≤ scraped_times ∧ scraped_times ≤ 5 then st.after_2 * 60 * 60
  else if 5 < scraped_times ∧ scraped_times ≤ 10 then st.after_5 * 60 * 60
  else if 10 < scraped_times then st.after_10 * 60 * 60
  else 5

/-- `Scraping.should_submit` (`scrapers/__init__.py` lines 46-61):
`not item.scraped_at or elapsed > scrape_time`. -/
def Scraping.should_submit (st : ScrapingSettings) (now : Int) (m : MediaItem) : Bool :=
  match m.scraped_at with
  | none => true
  | some t => decide ((scrapeTime st m.scraped_times : Int) < now - t)

/-- `Scraping._is_released` (`scrapers/__init__.py` lines 43-44). -/
def Scraping.is_released (now : Int) (m : MediaItem) : Bool :=
  match m.aired_at with
  | none => false
  | some t => decide (t < now)

/-- `Scraping._can_we_scrape` (`scrapers/__init__.py` lines 40-41). -/
def Scraping.can_we_scrape (st : ScrapingSettings) (now : Int) (m : MediaItem) : Bool :=
  Scraping.is_released now m && Scraping.should_submit st now m

/-- The per-attempt threshold as asserted by claim C7, reading "attempt `k`" as
the scrape performed when `scraped_times = k - 1`: 5 seconds for the first two
attempts, `after_2` hours for attempts 3-5, `after_5` hours for attempts 6-10,
`after_10` hours afterwards. -/
def claimScrapeTime (st : ScrapingSettings) (scraped_times : Nat) : Nat :=
  if scraped_times + 1 ≤ 2 then 5
  else if scraped_times + 1 ≤ 5 then st.after_2 * 60 * 60
  else if scraped_times + 1 ≤ 10 then st.after_5 * 60 * 60
  else st.after_10 * 60 * 60

/-- The scrape-eligibility predicate as asserted by claim C7. -/
def claimCanWeScrape (st : ScrapingSettings) (now : Int) (m : MediaItem) : Bool :=
  (match m.aired_at with
   | none => false
   | some t => decide (t < now)) &&
  (match m.scraped_at with
   | none => true
   | some t => decide ((claimScrapeTime st m.scraped_times : Int) < now - t))

/-- The per-attempt threshold with the brackets the code actually uses, keyed
directly on `scraped_times` (amended claim C7). -/
def amendedScrapeTime (st : ScrapingSettings) (scraped_times : Nat) : Nat :=
  if scraped_times < 2 then 5
  else if scraped_times ≤ 5 then st.after_2 * 60 * 60
  else if scraped_times ≤ 10 then st.after_5 * 60 * 60
  else st.after_10 * 60 * 60

/-- The scrape-eligibility predicate of the amended claim C7: released in the
past, and never scraped or elapsed time strictly above `amendedScrapeTime`. -/
def amendedCanWeScrape (st : ScrapingSettings) (now : Int) (m : MediaItem) : Bool :=
  (match m.aired_at with
   | none => false
   | some t => decide (t < now)) &&
  (match m.scraped_at with
   | none => true
   | some t => decide ((amendedScrapeTime st m.scraped_times : Int) < now - t))

/-! ## Cached-torrent selector (`backend/program/downloaders/realdebrid.py`) -/

/-- The result of `RTN.parser.parse` on a filename, restricted to the fields
the selector reads. `parse` is an external library; its output is part of the
file record. -/
structure ParsedFile where
  parsed_title : Option String
  ptype : String
  seasons : List Nat
  episodes : List Nat
deriving DecidableEq

/-- One entry of a debrid container: `{filename, filesize}` plus the parse
outcome (`none` models `parse` raising `GarbageTorrent`/`TypeError` or
returning a falsy value, which the selector skips). `ext` is
`splitext(filename.lower())[1]`. -/
structure RDFile where
  filename : String
  filesize : Nat
  ext : String
  parsed : Option ParsedFile
deriving DecidableEq

/-- `WANTED_FORMATS` (`realdebrid.py` line 21). -/
def WANTED_FORMATS : List String :=
  [".mkv", ".mp4", ".avi"]

/-- One step of the size-and-extension file filter: keep a truthy entry whose
`filesize` is strictly above `minSize` and whose extension is wanted. -/
def wantedFile? (minSize : Nat) : Option RDFile → Option RDFile
  | none => none
  | some f =>
    if minSize < f.filesize ∧ f.ext ∈ WANTED_FORMATS then some f else none

/-- The size-and-extension file filter shared by the three matchers
(`realdebrid.py` lines 184-187, 212-216, 249-252).
A container is a dict; entries are its values, `none` modelling a falsy one. -/
def wantedFiles (minSize : Nat) (container : List (Option RDFile)) : List RDFile :=
  container.filterMap (wantedFile? minSize)

/-- Stable insertion by descending `filesize`. -/
def insertBySizeDesc (f : RDFile) : List RDFile → List RDFile
  | [] => [f]
  | x :: xs =>
    if x.filesize ≤ f.filesize then f :: x :: xs else x :: insertBySizeDesc f xs

/-- Stable sort by descending `filesize` (`sorted(..., key=filesize,
reverse=True)` in `_is_wanted_movie`). -/
def sortBySizeDesc : List RDFile → List RDFile
  | [] => []
  | x :: xs => insertBySizeDesc x (sortBySizeDesc xs)

/-- `Debrid._is_wanted_movie` (`realdebrid.py` lines 178-204), decision part.
The size bound is the hardcoded `2e+8` bytes; accept when some remaining file
parses with a truthy title and `type == "movie"`. The `item.set` bindings on
success do not affect the decision. -/
def Debrid.is_wanted_movie (container : List (Option RDFile)) : Bool :=
  let filenames := sortBySizeDesc (wantedFiles 200000000 container)
  if filenames.isEmpty then false
  else
    filenames.any (fun f =>
      f.filename != "" &&
      match f.parsed with
      | none => false
      | some p => truthy p.parsed_title && p.ptype == "movie")

/-- `Debrid._is_wanted_episode` (`realdebrid.py` lines 206-240), decision part.
`one_season` is `len(item.parent.parent.seasons) == 1`. -/
def Debrid.is_wanted_episode (one_season : Bool) (season_num ep_num : Nat)
    (container : List (Option RDFile)) : Bool :=
  let filenames := wantedFiles 40000000 container
  if filenames.isEmpty then false
  else
    filenames.any (fun f =>
      f.filename != "" &&
      match f.parsed with
      | none => false
      | some p =>
        !p.episodes.isEmpty && !p.seasons.contains 0 &&
        (p.episodes.contains ep_num && p.seasons.contains season_num ||
         one_season && p.episodes.contains ep_num))

/-- Set of keys of the `needed_episodes` dict (`realdebrid.py` line 257):
numbers of the episodes whose state is Indexed, Scraped, Unknown or Failed;
first occurrence kept (dict key order). -/
def neededEpNums (s : Season) : List Nat :=
  (s.episodes.filterMap (fun e =>
    if e.state == States.Indexed || e.state == States.Scraped ||
       e.state == States.Unknown || e.state == States.Failed then
      some e.number
    else none)).foldl (fun acc n => if n ∈ acc then acc else acc ++ [n]) []

/-- Insert a key into a dict key set (overwriting keeps the key position). -/
def insertKey (acc : List Nat) (n : Nat) : List Nat :=
  if n ∈ acc then acc else acc ++ [n]

/-- Key set of the `matched_files` dict built by the loop of
`_is_wanted_season` (`realdebrid.py` lines 264-280). -/
def matchedEpNums (one_season : Bool) (season_num : Nat) (needed : List Nat)
    (filenames : List RDFile) : List Nat :=
  filenames.foldl
    (fun acc f =>
      if f.filename == "" then acc
      else
        match f.parsed with
        | none => acc
        | some p =>
          if p.episodes.isEmpty || p.seasons.contains 0 then acc
          else if p.seasons.contains season_num then
            p.episodes.foldl (fun a ep => if ep ∈ needed then insertKey a ep else a) acc
          else if one_season then
            p.episodes.foldl (fun a ep => if ep ∈ needed then insertKey a ep else a) acc
          else acc)
    []

/-- Equality of dict key sets (`needed_episodes.keys() == matched_files.keys()`;
both lists are duplicate-free). -/
def keysEq (a b : List Nat) : Bool :=
  a.all (fun n => n ∈ b) && b.all (fun n => n ∈ a)

/-- `Debrid._is_wanted_season` (`realdebrid.py` lines 242-293), decision part.
`parentSeasonCount` is `len(item.parent.seasons)`. Accept when the matched key
set equals the needed key set, or at least `len(needed) // 2` episodes matched
(and at least one file matched). -/
def Debrid.is_wanted_season (parentSeasonCount : Nat) (s : Season)
    (container : List (Option RDFile)) : Bool :=
  let filenames := wantedFiles 40000000 container
  if filenames.isEmpty then false
  else
    let needed := neededEpNums s
    let one_season := parentSeasonCount == 1
    let matched := matchedEpNums one_season s.number needed filenames
    if matched.isEmpty then false
    else keysEq needed matched || decide (needed.length / 2 ≤ matched.length)

/-- Stable insertion by descending container size. -/
def insertByLenDesc (c : List (Option RDFile)) :
    List (List (Option RDFile)) → List (List (Option RDFile))
  | [] => [c]
  | x :: xs =>
    if x.length ≤ c.length then c :: x :: xs else x :: insertByLenDesc c xs

/-- `sorted_containers` (`realdebrid.py` lines 153-156): containers sorted by
descending file count. -/
def sortContainersByLenDesc : List (List (Option RDFile)) → List (List (Option RDFile))
  | [] => []
  | x :: xs => insertByLenDesc x (sortContainersByLenDesc xs)

/-- `Debrid._process_providers` (`realdebrid.py` lines 147-176), decision part:
test each container in descending file-count order with the matcher of the
item's variant. There is no `Show` branch — a `Show` never matches. -/
def Debrid.process_providers (item : Item) (containers : List (List (Option RDFile))) : Bool :=
  match item with
  | Item.movie _ =>
    (sortContainersByLenDesc containers).any (fun c => Debrid.is_wanted_movie c)
  | Item.episode g p e =>
    (sortContainersByLenDesc containers).any (fun c =>
      Debrid.is_wanted_episode (g.seasons.length == 1) p.number e.number c)
  | Item.season p s =>
    (sortContainersByLenDesc containers).any (fun c =>
      Debrid.is_wanted_season p.seasons.length s c)
  | Item.tvshow _ => false

/-- `Debrid.run` (`realdebrid.py` lines 58-67), at the level of which items the
generator yields. The network-dependent checks `is_cached` and the download
handshake are abstracted into the `is_cached` flag; a yielded item is the input
item (mutated by the handshake, which the guards do not read). -/
def Debrid.run_yields (is_cached : Bool) (item : Item) : List Item :=
  match item with
  | Item.tvshow _ => []
  | _ =>
    if truthy item.attrs.file && truthy item.attrs.folder then []
    else if !is_cached then []
    else [item]

/-! ## Symlink materializer (`backend/program/symlink.py`) -/

/-- `reset_item` (`symlink.py` lines 504-512): reset the attributes that force
a full rescrape, including both counters. -/
def reset_item (m : MediaItem) : MediaItem :=
  { m with
    file := none
    folder := none
    streams := []
    active_stream_hash := none
    active_stream_id := none
    symlinked_times := 0
    scraped_times := 0 }

/-- `blacklist_item` (`symlink.py` lines 495-502): reset the item; the infohash
(if any) is blacklisted in the process-wide hash cache, returned here as the
second component. -/
def blacklist_item (m : MediaItem) : MediaItem × Option String :=
  (reset_item m, m.active_stream_hash)

/-- The possible outcomes of `Symlinker._symlink` (`symlink.py` lines 229-258)
as observed by `run`: success (which also stamps the item, lines 243-245);
`False` before any mutation (missing source, or `os.symlink` raised
`PermissionError`/`OSError`); `False` after stamping (the final validation at
line 254 failed); or an exception escaping `_symlink`. -/
inductive SymOutcome where
  | ok
  | failNoMutate
  | failAfterMutate
  | raises
deriving DecidableEq

/-- The stamping done inside `_symlink` on success (`symlink.py` lines 243-245). -/
def symlinkStamp (now : Int) (m : MediaItem) : MediaItem :=
  { m with symlinked := true, symlinked_at := some now, symlinked_times := m.symlinked_times + 1 }

/-- `Symlinker.run` for a `Movie`/`Episode` (`symlink.py` lines 143-155): the
`isinstance(item, (Movie, Episode))` branch of the `try`, the unconditional
`symlinked`/`symlinked_at` stamps at the end of the `try` (lines 149-150,
skipped when an exception was caught), and the unconditional
`symlinked_times` increment after the `try` (line 154). -/
def Symlinker.run_leaf (o : SymOutcome) (now : Int) (m : MediaItem) : MediaItem :=
  let attempted := !m.symlinked && truthy m.file && truthy m.folder
  let afterSym :=
    if attempted then
      match o with
      | SymOutcome.ok => symlinkStamp now m
      | SymOutcome.failNoMutate => m
      | SymOutcome.failAfterMutate => symlinkStamp now m
      | SymOutcome.raises => m
    else m
  let raised := attempted && o == SymOutcome.raises
  let afterTry :=
    if raised then afterSym
    else { afterSym with symlinked := true, symlinked_at := some now }
  { afterTry with symlinked_times := afterTry.symlinked_times + 1 }

/-- The operations of a scraping or symlinking run on an item's counters:
the reporting tail of `Scraping.run` (`scrapers/__init__.py` lines 28-29) and
a leaf `Symlinker.run` (claim C4's amended statement ranges over these). -/
inductive RunOp where
  | scrapeReport (now : Int)
  | symlinkRun (o : SymOutcome) (now : Int)
deriving DecidableEq

/-- Apply one run operation. -/
def applyRunOp : RunOp → MediaItem → MediaItem
  | RunOp.scrapeReport now, m =>
    { m with scraped_at := some now, scraped_times := m.scraped_times + 1 }
  | RunOp.symlinkRun o now, m => Symlinker.run_leaf o now m

/-- Apply a sequence of run operations, first element first. -/
def applyRunOps (ops : List RunOp) (m : MediaItem) : MediaItem :=
  ops.foldl (fun acc op => applyRunOp op acc) m

/-! ## Event admission (`src/utils/event_manager.py`) -/

/-- One queued/running event as the admission check reads it: the item's store
id (`event.item.id`, `none` when the item is not in the database) and its
IMDb id (`event.item.ids["imdb_id"]`). -/
structure EMEvent where
  id : Option String
  imdb : String
deriving DecidableEq

/-- The queue state of `EventManager`: `_queued_events` and `_running_events`. -/
structure EMState where
  queued : List EMEvent
  running : List EMEvent
deriving DecidableEq

/-- `EventManager._id_in_queue` (`event_manager.py` lines 231-241). -/
def id_in_queue (s : EMState) (i : String) : Bool :=
  s.queued.any (fun e => e.id == some i)

/-- `EventManager._id_in_running_events` (`event_manager.py` lines 243-253). -/
def id_in_running_events (s : EMState) (i : String) : Bool :=
  s.running.any (fun e => e.id == some i)

/-- `EventManager._imdb_id_in_queue` (`event_manager.py` lines 255-265). -/
def imdb_id_in_queue (s : EMState) (im : String) : Bool :=
  s.queued.any (fun e => e.imdb == im)

/-- `EventManager._imdb_id_in_running_events` (`event_manager.py` lines 267-277). -/
def imdb_id_in_running_events (s : EMState) (im : String) : Bool :=
  s.running.any (fun e => e.imdb == im)

/-- The not-in-database fallback of `add_event` (`event_manager.py` lines
303-310): admission keyed on the IMDb id. -/
def add_event_nodb (e : EMEvent) (s : EMState) : Bool × EMState :=
  if imdb_id_in_queue s e.imdb then (false, s)
  else if imdb_id_in_running_events s e.imdb then (false, s)
  else (true, { s with queued := s.queued ++ [e] })

/-- `EventManager.add_event` (`event_manager.py` lines 279-318). The pair
`(item_id, related_ids)` is the result of `_get_item_ids(session, event.item)`.
Modelled from the spec: `_get_item_ids` lives in `program.db.db_functions`,
which is not in the source tree; per the spec it returns the item's store id
together with every ancestor and descendant id reachable through the store, so
it is passed in as data. On admission the event is appended to the queue
(`add_event_to_queue`). -/
def add_event (item_id : Option String) (related_ids : List String) (e : EMEvent)
    (s : EMState) : Bool × EMState :=
  match item_id with
  | some i =>
    if i == "" then add_event_nodb e s
    else if id_in_queue s i then (false, s)
    else if id_in_running_events s i then (false, s)
    else if related_ids.any (fun r => id_in_queue s r || id_in_running_events s r) then
      (false, s)
    else (true, { s with queued := s.queued ++ [e] })
  | none => add_event_nodb e s

/-- Iterate `add_event` with the same store answer and event `n` times. -/
def add_event_iter (item_id : Option String) (related_ids : List String) (e : EMEvent) :
    Nat → EMState → EMState
  | 0, s => s
  | n + 1, s => add_event_iter item_id related_ids e n (add_event item_id related_ids e s).2

/-- The number of queued events whose item has store id `i`. -/
def countQueued (s : EMState) (i : String) : Nat :=
  (s.queued.filter (fun e => e.id == some i)).length

/-- No event for store id `i`, nor for any of the `related` ids, is queued or
running: the admission condition of claim C1. -/
def noConflict (i : String) (related : List String) (s : EMState) : Prop :=
  id_in_queue s i = false ∧ id_in_running_events s i = false ∧
    ∀ r ∈ related, id_in_queue s r = false ∧ id_in_running_events s r = false

/-! ## Concrete items used to evaluate the definitions -/

/-- A constant-true predicate on items (stands in for the should-submit
predicates where their value is irrelevant). -/
def predTrue : Item → Bool := fun _ => true

/-- A movie whose library `key` is set, hence in state Completed. -/
def exCompletedMovie : MediaItem :=
  { key := some "plexkey", title := some "Matrix", imdb_id := some "tt0133093",
    requested_by := some "user" }

/-- A season with no episodes. -/
def exEmptySeason : Season :=
  { number := 1, episodes := [], item := {} }

/-- An episode in state Indexed (title set, nothing further). -/
def exIndexedEpisode (n : Nat) : Episode :=
  { number := n, item := { title := some "T" } }

/-- A season with four Indexed episodes, all needed by the season matcher. -/
def exNeedySeason : Season :=
  { number := 1,
    episodes := [exIndexedEpisode 1, exIndexedEpisode 2, exIndexedEpisode 3, exIndexedEpisode 4],
    item := { title := some "T" } }

/-- A container file that parses as season 1, one given episode. -/
def exEpisodeFile (n : Nat) : Option RDFile :=
  some { filename := "f.mkv", filesize := 50000000, ext := ".mkv",
         parsed := some { parsed_title := some "T", ptype := "episode",
                          seasons := [1], episodes := [n] } }

/-- A container holding files for episodes 1 and 2 only. -/
def exHalfContainer : List (Option RDFile) :=
  [exEpisodeFile 1, exEpisodeFile 2]

/-- A movie file exactly at the hardcoded size minimum of `_is_wanted_movie`. -/
def exFileAtMin : RDFile :=
  { filename := "m.mkv", filesize := 200000000, ext := ".mkv",
    parsed := some { parsed_title := some "M", ptype := "movie",
                     seasons := [], episodes := [] } }

/-- The same movie file one byte above the minimum. -/
def exFileAboveMin : RDFile :=
  { exFileAtMin with filesize := 200000001 }

/-- A one-season show whose single episode still needs downloading. -/
def exPendingShow : TvShow :=
  { seasons := [{ number := 1, episodes := [exIndexedEpisode 1], item := { title := some "T" } }],
    item := { title := some "T" } }

/-- A container satisfying `exPendingShow`'s only season. -/
def exFullContainer : List (Option RDFile) :=
  [exEpisodeFile 1]

/-- Settings distinguishing the three backoff buckets (1, 2 and 3 hours). -/
def exScrapingSettings : ScrapingSettings :=
  { after_2 := 1, after_5 := 2, after_10 := 3 }

/-- A released item on its sixth scrape attempt, last scraped at instant 0. -/
def exScrapedFiveItem : MediaItem :=
  { aired_at := some (-10), scraped_at := some 0, scraped_times := 5 }

/-- An item whose counters are both 1. -/
def exCountedItem : MediaItem :=
  { scraped_times := 1, symlinked_times := 1 }

/-- A downloaded leaf (file and folder set, not yet symlinked). -/
def exDownloadedLeaf : MediaItem :=
  { file := some "a.mkv", folder := some "F", title := some "M" }

/-- An episode in state Completed. -/
def exCompletedEpisode : Episode :=
  { number := 1, item := exCompletedMovie }

/-- A one-episode season whose episode is Completed. -/
def exCompletedSeason : Season :=
  { number := 1, episodes := [exCompletedEpisode], item := {} }

/-! ## Theorems -/

/-- Claim C5: for every leaf item (Movie, Episode), the derived state follows
the exact priority order key/update_folder, symlinked, file-and-folder,
streams, title, imdb-and-requested_by, Unknown. The code's
`MediaItem._determine_state` equals the state function transcribed from the
claim's words, and both leaf variants dispatch to it. -/
theorem leaf_state_priority :
    (∀ m : MediaItem, MediaItem.determine_state m = specLeafState m)
    ∧ (∀ m : MediaItem, itemState (Item.movie m) = specLeafState m)
    ∧ (∀ (g : TvShow) (p : Season) (e : Episode),
        itemState (Item.episode g p e) = specLeafState e.item) := by
  have base : ∀ m : MediaItem, MediaItem.determine_state m = specLeafState m := by
    intro m
    unfold MediaItem.determine_state specLeafState MediaItem.is_scraped
    simp only [Bool.or_eq_true, Bool.and_eq_true, beq_iff_eq, Bool.not_eq_true',
      List.isEmpty_eq_true, List.isEmpty_eq_false, ne_eq]
  exact ⟨base, fun m => base m, fun g p e => base e.item⟩

/-- Claim C6 counterexample: a season with an empty episode list derives state
Unknown, not Completed, although every episode of it (vacuously) is Completed.
The claimed equivalence fails on the empty season. -/
theorem empty_season_counterexample :
    Season.determine_state exEmptySeason ≠ States.Completed
    ∧ ∀ e ∈ exEmptySeason.episodes, e.state = States.Completed := by
  constructor
  · decide
  · intro e he
    simp [exEmptySeason] at he

/-- Claim C6 (amended): for every season with at least one episode, the derived
state is Completed iff every episode's derived state is Completed; a season
with no episodes derives Unknown. -/
theorem season_completed_iff (s : Season) (h : s.episodes ≠ []) :
    Season.determine_state s = States.Completed ↔
      ∀ e ∈ s.episodes, e.state = States.Completed := by
  have hne : s.episodes.isEmpty = false := by
    simpa [List.isEmpty_eq_true] using h
  unfold Season.determine_state
  rw [hne]
  simp only [Bool.not_false, if_true]
  by_cases hall : s.episodes.all (fun e => e.state == States.Completed) = true
  · simp only [hall, if_true, true_iff]
    intro e he
    have := List.all_eq_true.mp hall e he
    simpa using this
  · rw [if_neg hall]
    constructor
    · intro hc
      exfalso
      revert hc
      repeat' split
      all_goals decide
    · intro hAll
      exact absurd (List.all_eq_true.mpr fun e he => by simpa using hAll e he) hall

/-- Claim C6 witness: the amended equivalence applied to a concrete one-episode
season whose episode is Completed. -/
theorem season_completed_iff_witness :
    Season.determine_state exCompletedSeason = States.Completed :=
  (season_completed_iff exCompletedSeason (by decide)).mpr (by decide)

/-- Claim C4 counterexample: `reset_item` (called by `blacklist_item` on every
blacklisting failure path) sets both counters to 0, so a blacklisting run
strictly decreases them on an item whose counters are 1. -/
theorem counters_reset_counterexample :
    (reset_item exCountedItem).scraped_times < exCountedItem.scraped_times
    ∧ (reset_item exCountedItem).symlinked_times < exCountedItem.symlinked_times := by
  decide

/-- A leaf `Symlinker.run` increments `symlinked_times` once (plus once more
inside `_symlink` in the outcomes that stamp). -/
theorem run_leaf_symlinked_times (o : SymOutcome) (now : Int) (m : MediaItem) :
    (Symlinker.run_leaf o now m).symlinked_times = m.symlinked_times + 1
    ∨ (Symlinker.run_leaf o now m).symlinked_times = m.symlinked_times + 2 := by
  unfold Symlinker.run_leaf symlinkStamp
  by_cases h : (!m.symlinked && truthy m.file && truthy m.folder) = true <;>
    cases o <;> simp [h]

/-- A leaf `Symlinker.run` leaves `scraped_times` untouched. -/
theorem run_leaf_scraped_times (o : SymOutcome) (now : Int) (m : MediaItem) :
    (Symlinker.run_leaf o now m).scraped_times = m.scraped_times := by
  unfold Symlinker.run_leaf symlinkStamp
  by_cases h : (!m.symlinked && truthy m.file && truthy m.folder) = true <;>
    cases o <;> simp [h]

/-- Monotonicity of a single scraping or symlinking run on the counters. -/
theorem applyRunOp_mono (op : RunOp) (m : MediaItem) :
    m.scraped_times ≤ (applyRunOp op m).scraped_times
    ∧ m.symlinked_times ≤ (applyRunOp op m).symlinked_times := by
  cases op with
  | scrapeReport now => exact ⟨Nat.le_succ _, Nat.le_refl _⟩
  | symlinkRun o now =>
    have h1 := run_leaf_symlinked_times o now m
    have h2 := run_leaf_scraped_times o now m
    simp only [applyRunOp]
    exact ⟨Nat.le_of_eq h2.symm, by rcases h1 with h | h <;> omega⟩

/-- Claim C4 (amended): across any sequence of scraping and symlinking runs the
counters `scraped_times` and `symlinked_times` never decrease; the
blacklist/reset path (`reset_item`) however sets both counters to 0. -/
theorem counters_monotone_without_reset :
    (∀ (ops : List RunOp) (m : MediaItem),
      m.scraped_times ≤ (applyRunOps ops m).scraped_times
      ∧ m.symlinked_times ≤ (applyRunOps ops m).symlinked_times)
    ∧ (∀ m : MediaItem,
      (reset_item m).scraped_times = 0 ∧ (reset_item m).symlinked_times = 0) := by
  constructor
  · intro ops
    induction ops with
    | nil => intro m; exact ⟨Nat.le_refl _, Nat.le_refl _⟩
    | cons op rest ih =>
      intro m
      have h1 := applyRunOp_mono op m
      have h2 := ih (applyRunOp op m)
      unfold applyRunOps at h2 ⊢
      simp only [List.foldl_cons]
      exact ⟨Nat.le_trans h1.1 h2.1, Nat.le_trans h1.2 h2.2⟩
  · intro m
    exact ⟨rfl, rfl⟩

/-- Claim C9 counterexample: a one-season show whose container satisfies its
only (released, needy) season — `_is_wanted_season` accepts it — yet
`Debrid.run` yields nothing for the show and `_process_providers` has no show
branch: the show is skipped, not recursed into. -/
theorem show_download_skip_counterexample :
    Debrid.run_yields true (Item.tvshow exPendingShow) = []
    ∧ Debrid.process_providers (Item.tvshow exPendingShow) [exFullContainer] = false
    ∧ Debrid.is_wanted_season exPendingShow.seasons.length
        (exPendingShow.seasons.headD exEmptySeason) exFullContainer = true := by
  refine ⟨rfl, rfl, ?_⟩
  decide

/-- Claim C9 (amended): a Show submitted to the downloader is skipped outright:
`Debrid.run` yields nothing for any show whatever the cache answers, and
`_process_providers` matches no container against a show. Seasons are only
downloaded when submitted individually. -/
theorem show_download_skipped :
    (∀ (cached : Bool) (sh : TvShow), Debrid.run_yields cached (Item.tvshow sh) = [])
    ∧ (∀ (sh : TvShow) (cs : List (List (Option RDFile))),
        Debrid.process_providers (Item.tvshow sh) cs = false) :=
  ⟨fun _ _ => rfl, fun _ _ => rfl⟩

/-- Claim C8 counterexample: a movie container file whose size is exactly the
matcher's minimum is rejected by `_is_wanted_movie` — the filter keeps only
files strictly larger, and no configured bound is consulted. -/
theorem movie_min_size_counterexample :
    Debrid.is_wanted_movie [some exFileAtMin] = false := by
  decide

/-- Claim C8 (amended): the movie file filter's lower bound is the hardcoded
`2e+8` bytes, not the configured `movie_filesize_min_mb` range: a file passes
the size filter iff its size is strictly greater than 200000000 bytes (and its
extension is wanted); a file exactly at the bound is rejected, one byte above
is accepted. -/
theorem movie_size_filter :
    (∀ (c : List (Option RDFile)) (f : RDFile),
      f ∈ wantedFiles 200000000 c ↔
        some f ∈ c ∧ 200000000 < f.filesize ∧ f.ext ∈ WANTED_FORMATS)
    ∧ Debrid.is_wanted_movie [some exFileAtMin] = false
    ∧ Debrid.is_wanted_movie [some exFileAboveMin] = true := by
  refine ⟨fun c f => ?_, by decide, by decide⟩
  unfold wantedFiles
  rw [List.mem_filterMap]
  constructor
  · rintro ⟨a, ha, hfa⟩
    cases a with
    | none => simp [wantedFile?] at hfa
    | some g =>
      by_cases hc : 200000000 < g.filesize ∧ g.ext ∈ WANTED_FORMATS
      · rw [wantedFile?, if_pos hc] at hfa
        injection hfa with h
        subst h
        exact ⟨ha, hc⟩
      · rw [wantedFile?, if_neg hc] at hfa
        simp at hfa
  · rintro ⟨hmem, h1, h2⟩
    exact ⟨some f, hmem, by rw [wantedFile?, if_pos ⟨h1, h2⟩]⟩

/-- The backoff threshold of `should_submit` equals the bracket function keyed
directly on `scraped_times`. -/
theorem scrapeTime_eq_amended (st : ScrapingSettings) (t : Nat) :
    scrapeTime st t = amendedScrapeTime st t := by
  unfold scrapeTime amendedScrapeTime
  split_ifs <;> first | rfl | omega

/-- Claim C7 counterexample: on the sixth scrape attempt (`scraped_times = 5`,
settings `after_2 = 1`, `after_5 = 2`, `after_10 = 3` hours, elapsed 4000 s)
the code is eligible (threshold `after_2` hours) while the claim's brackets
(attempts 6-10 use `after_5` hours) say it is not. -/
theorem scrape_threshold_counterexample :
    Scraping.can_we_scrape exScrapingSettings 4000 exScrapedFiveItem = true
    ∧ claimCanWeScrape exScrapingSettings 4000 exScrapedFiveItem = false := by
  decide

/-- Claim C7 (amended): eligibility is `aired_at` set and in the past, and the
item never scraped or the elapsed time strictly above the threshold keyed on
`scraped_times`: 5 s for `scraped_times < 2`, `after_2` hours for 2-5,
`after_5` hours for 6-10, `after_10` hours for more than 10. -/
theorem scrape_eligibility_brackets (st : ScrapingSettings) (now : Int) (m : MediaItem) :
    Scraping.can_we_scrape st now m = amendedCanWeScrape st now m := by
  unfold Scraping.can_we_scrape Scraping.is_released Scraping.should_submit amendedCanWeScrape
  simp only [scrapeTime_eq_amended]

/-- Claim C3 counterexample: for a Completed movie and a non-source emitter the
transition returns `(None, None, [])` — the updated item is `None`, not the
item itself as the claim's `(item, None, [])` asserts. -/
theorem process_event_completed_counterexample :
    itemState (Item.movie exCompletedMovie) = States.Completed
    ∧ process_event predTrue predTrue predTrue none Service.Debrid (Item.movie exCompletedMovie)
        ≠ (some (Item.movie exCompletedMovie), none, []) := by
  decide

/-- Claim C3 (amended): for every item in state Completed, and every emitter
that is neither a content source nor the indexer, `process_event` returns
`(None, None, [])`: no updated item, no next service, nothing to submit. -/
theorem process_event_completed (t s y : Item → Bool) (ex : Option Item)
    (em : Service) (it : Item)
    (h1 : em ∉ sourceServices)
    (h2 : (em == Service.TraktIndexer) = false)
    (h3 : itemState it = States.Completed) :
    process_event t s y ex em it = (none, none, []) := by
  unfold process_event
  rw [h3]
  simp [h1, h2]

/-- Claim C3 witness: the amended statement applied to a Completed movie
emitted by the Symlinker with a stored copy present. -/
theorem process_event_completed_witness :
    process_event predTrue predTrue predTrue (some (Item.movie exCompletedMovie))
      Service.Symlinker (Item.movie exCompletedMovie) = (none, none, []) :=
  process_event_completed _ _ _ _ _ _ (by decide) (by decide) (by decide)

/-- A leaf `Symlinker.run` where `_symlink` returns `False` without mutating
still stamps the item (lines 149-150, 154). -/
theorem run_leaf_failNoMutate (now : Int) (m : MediaItem) :
    Symlinker.run_leaf SymOutcome.failNoMutate now m =
      { m with symlinked := true, symlinked_at := some now,
               symlinked_times := m.symlinked_times + 1 } := by
  unfold Symlinker.run_leaf
  by_cases h : (!m.symlinked && truthy m.file && truthy m.folder) = true <;> simp [h]

/-- A leaf `Symlinker.run` where `_symlink` raises skips the stamps of lines
149-150 and only increments `symlinked_times` (line 154). -/
theorem run_leaf_raises (now : Int) (m : MediaItem)
    (h : (!m.symlinked && truthy m.file && truthy m.folder) = true) :
    Symlinker.run_leaf SymOutcome.raises now m =
      { m with symlinked_times := m.symlinked_times + 1 } := by
  unfold Symlinker.run_leaf
  simp [h]

/-- Claim C10 counterexample: when `_symlink` raises, the `except` clause skips
the `symlinked`/`symlinked_at` stamps, so a downloaded leaf stays
`symlinked = false` (only `symlinked_times` is incremented) — contradicting the
claim that `symlinked = True` is set even when an exception is raised. -/
theorem symlink_run_exception_counterexample :
    (Symlinker.run_leaf SymOutcome.raises 7 exDownloadedLeaf).symlinked = false
    ∧ (Symlinker.run_leaf SymOutcome.raises 7 exDownloadedLeaf).symlinked_times
        = exDownloadedLeaf.symlinked_times + 1 := by
  decide

/-- Claim C10 (amended): `Symlinker.run` on a Movie/Episode stamps
`symlinked = True`, `symlinked_at = now` and increments `symlinked_times` when
`_symlink` merely returns `False` (missing source included) — moving the
derived state to Symlinked — while an exception escaping `_symlink` skips the
stamps and only increments `symlinked_times`. -/
theorem symlink_run_failure_stamps (now : Int) (m : MediaItem)
    (hk : truthy m.key = false) (hu : (m.update_folder == some "updated") = false) :
    ((Symlinker.run_leaf SymOutcome.failNoMutate now m).symlinked = true
     ∧ (Symlinker.run_leaf SymOutcome.failNoMutate now m).symlinked_at = some now
     ∧ (Symlinker.run_leaf SymOutcome.failNoMutate now m).symlinked_times = m.symlinked_times + 1
     ∧ (Symlinker.run_leaf SymOutcome.failNoMutate now m).determine_state = States.Symlinked)
    ∧ ((!m.symlinked && truthy m.file && truthy m.folder) = true →
        (Symlinker.run_leaf SymOutcome.raises now m).symlinked = m.symlinked
        ∧ (Symlinker.run_leaf SymOutcome.raises now m).symlinked_at = m.symlinked_at
        ∧ (Symlinker.run_leaf SymOutcome.raises now m).symlinked_times = m.symlinked_times + 1) := by
  constructor
  · rw [run_leaf_failNoMutate]
    refine ⟨rfl, rfl, rfl, ?_⟩
    unfold MediaItem.determine_state
    simp [hk, hu]
  · intro h
    rw [run_leaf_raises now m h]
    exact ⟨rfl, rfl, rfl⟩

/-- Claim C10 witness: the amended statement applied to a downloaded leaf. -/
theorem symlink_run_failure_stamps_witness :
    (Symlinker.run_leaf SymOutcome.failNoMutate 5 exDownloadedLeaf).determine_state
      = States.Symlinked :=
  (symlink_run_failure_stamps 5 exDownloadedLeaf (by decide) (by decide)).1.2.2.2

/-- Claim C2 counterexample: Real-Debrid's season matcher accepts a container
that covers only 2 of the 4 needed episodes (the `len(matched) >=
len(needed) // 2` disjunct, present in the Real-Debrid module itself): episode
3 is needed but unmatched, yet `_is_wanted_season` returns `True`. -/
theorem season_matcher_half_accept_counterexample :
    Debrid.is_wanted_season 2 exNeedySeason exHalfContainer = true
    ∧ 3 ∈ neededEpNums exNeedySeason
    ∧ 3 ∉ matchedEpNums false 1 (neededEpNums exNeedySeason)
        (wantedFiles 40000000 exHalfContainer) := by
  refine ⟨by decide, by decide, by decide⟩

/-- Claim C2 (amended): Real-Debrid's season matcher accepts a container iff
at least one needed episode is matched and either the matched key set equals
the needed key set or at least `⌊needed/2⌋` episodes are matched — the
half-coverage relaxation is Real-Debrid behaviour, not an AllDebrid-only one. -/
theorem season_matcher_acceptance (psc : Nat) (s : Season) (c : List (Option RDFile)) :
    Debrid.is_wanted_season psc s c = true ↔
      matchedEpNums (psc == 1) s.number (neededEpNums s) (wantedFiles 40000000 c) ≠ []
      ∧ (keysEq (neededEpNums s)
            (matchedEpNums (psc == 1) s.number (neededEpNums s) (wantedFiles 40000000 c)) = true
         ∨ (neededEpNums s).length / 2 ≤
            (matchedEpNums (psc == 1) s.number (neededEpNums s) (wantedFiles 40000000 c)).length) := by
  unfold Debrid.is_wanted_season
  by_cases hf : (wantedFiles 40000000 c).isEmpty = true
  · have hnil : wantedFiles 40000000 c = [] := List.isEmpty_eq_true.mp hf
    rw [hnil]
    simp [matchedEpNums]
  · rw [if_neg (by simp [hf])]
    by_cases hm :
        (matchedEpNums (psc == 1) s.number (neededEpNums s) (wantedFiles 40000000 c)).isEmpty = true
    · have hnil := List.isEmpty_eq_true.mp hm
      simp [hm, hnil]
    · have hne := List.isEmpty_eq_false.mp (by simpa using hm)
      simp [hm, hne]

/-- The check over related ids fails exactly when no related id is queued or
running. -/
theorem relAny_eq_false_iff (rel : List String) (s : EMState) :
    (rel.any fun r => id_in_queue s r || id_in_running_events s r) = false ↔
      ∀ r ∈ rel, id_in_queue s r = false ∧ id_in_running_events s r = false := by
  simp [List.any_eq_false, not_or]

/-- `add_event` accepts when nothing conflicts, appending the event. -/
theorem add_event_accepts (i : String) (rel : List String) (e : EMEvent) (s : EMState)
    (hi : (i == "") = false) (nc : noConflict i rel s) :
    add_event (some i) rel e s = (true, { s with queued := s.queued ++ [e] }) := by
  obtain ⟨h1, h2, h3⟩ := nc
  have h4 : (rel.any fun r => id_in_queue s r || id_in_running_events s r) = false :=
    (relAny_eq_false_iff rel s).mpr h3
  unfold add_event
  simp [hi, h1, h2, h4]

/-- `add_event` rejects without touching the state when the item's id is
already queued. -/
theorem add_event_rejects_queued (i : String) (rel : List String) (e : EMEvent) (s : EMState)
    (hi : (i == "") = false) (h : id_in_queue s i = true) :
    add_event (some i) rel e s = (false, s) := by
  unfold add_event
  simp [hi, h]

/-- The accept flag of `add_event` as a conjunction of the three checks. -/
theorem add_event_flag (i : String) (rel : List String) (e : EMEvent) (s : EMState)
    (hi : (i == "") = false) :
    (add_event (some i) rel e s).1 =
      (!id_in_queue s i && !id_in_running_events s i &&
        !(rel.any fun r => id_in_queue s r || id_in_running_events s r)) := by
  unfold add_event
  cases hq : id_in_queue s i <;> cases hr : id_in_running_events s i <;>
    cases ha : rel.any (fun r => id_in_queue s r || id_in_running_events s r) <;>
      simp [hi, hq, hr, ha]

/-- After appending an event with id `i`, that id is in the queue. -/
theorem id_in_queue_append (s : EMState) (e : EMEvent) (i : String) (he : e.id = some i) :
    id_in_queue { s with queued := s.queued ++ [e] } i = true := by
  unfold id_in_queue
  simp [List.any_append, he]

/-- A state whose queue already holds the id absorbs any further
`add_event` iterations. -/
theorem add_event_iter_fixed (i : String) (rel : List String) (e : EMEvent)
    (hi : (i == "") = false) :
    ∀ (n : Nat) (s : EMState), id_in_queue s i = true →
      add_event_iter (some i) rel e n s = s := by
  intro n
  induction n with
  | zero => intro s _; rfl
  | succ k ih =>
    intro s h
    unfold add_event_iter
    rw [add_event_rejects_queued i rel e s hi h]
    exact ih s h

/-- If the id is not in the queue, no queued event carries it. -/
theorem countQueued_eq_zero (s : EMState) (i : String) (h : id_in_queue s i = false) :
    countQueued s i = 0 := by
  unfold countQueued
  unfold id_in_queue at h
  rw [List.any_eq_false] at h
  rw [List.length_eq_zero, List.filter_eq_nil_iff]
  intro a ha
  exact h a ha

/-- Claim C1: `add_event` accepts iff no event with the same store id, nor any
related (ancestor or descendant) id, is queued or running; acceptance appends
the event; and with no prior conflict, `N ≥ 1` calls for the same item leave
exactly one queued event for it (the admission check is keyed on
`_get_item_ids`, modelled from the spec as the store id plus the
ancestor/descendant ids). -/
theorem add_event_admission_and_idempotence (i : String) (rel : List String) (e : EMEvent)
    (s : EMState) (hi : (i == "") = false) (he : e.id = some i) :
    ((add_event (some i) rel e s).1 = true ↔ noConflict i rel s)
    ∧ ((add_event (some i) rel e s).1 = true →
        (add_event (some i) rel e s).2.queued = s.queued ++ [e])
    ∧ (noConflict i rel s → ∀ n, 1 ≤ n →
        countQueued (add_event_iter (some i) rel e n s) i = 1) := by
  have hflag := add_event_flag i rel e s hi
  refine ⟨?_, ?_, ?_⟩
  · rw [hflag]
    unfold noConflict
    rw [← relAny_eq_false_iff rel s]
    cases id_in_queue s i <;> cases id_in_running_events s i <;>
      cases rel.any (fun r => id_in_queue s r || id_in_running_events s r) <;> simp
  · intro hacc
    have nc : noConflict i rel s := by
      rw [hflag] at hacc
      unfold noConflict
      rw [← relAny_eq_false_iff rel s]
      revert hacc
      cases id_in_queue s i <;> cases id_in_running_events s i <;>
        cases rel.any (fun r => id_in_queue s r || id_in_running_events s r) <;> simp
    rw [add_event_accepts i rel e s hi nc]
  · intro nc n hn
    obtain ⟨k, rfl⟩ : ∃ k, n = k + 1 := ⟨n - 1, by omega⟩
    unfold add_event_iter
    rw [add_event_accepts i rel e s hi nc]
    have hq1 : id_in_queue { s with queued := s.queued ++ [e] } i = true :=
      id_in_queue_append s e i he
    rw [add_event_iter_fixed i rel e hi k _ hq1]
    unfold countQueued
    rw [List.filter_append]
    have h0 : countQueued s i = 0 := countQueued_eq_zero s i nc.1
    unfold countQueued at h0
    rw [List.length_eq_zero] at h0
    simp [h0, he]

/-- Claim C1 witness: a fresh item admitted into an empty manager twice leaves a
single queued event. -/
theorem add_event_admission_witness :
    countQueued (add_event_iter (some "a") ["p"] { id := some "a", imdb := "x" } 2
      { queued := [], running := [] }) "a" = 1 :=
  (add_event_admission_and_idempotence "a" ["p"] { id := some "a", imdb := "x" }
    { queued := [], running := [] } (by decide) rfl).2.2
    ⟨rfl, rfl, fun _ _ => ⟨rfl, rfl⟩⟩ 2 (by decide)

end Iceburg
